import Mathlib

/-!
A shallow embedding of the prompt-enhancement program in `src/app.py`
(`transform_prompt` and `validate_api_key`), together with theorems checking
the specification's claims about it.

Python strings are modelled as Lean `String`s; the substring test `key in text`
is modelled as list containment (`<:+:`) on the underlying character lists; the
two `random.choice` calls are modelled by explicit index parameters
(`Fin 4` for the title, `Fin 3` for the persona); the network call inside
`validate_api_key` is modelled by an explicit `Except` outcome parameter.
All text handled by the program is ASCII, so `Char.toLower`/`Char.toUpper`
agree with Python's `str.lower`/`str.title` on the relevant inputs.
-/

namespace PromptApp

open scoped List

/-- Python `s.lower()`, as the lower-cased character list of `s`. -/
def lower (s : String) : List Char := s.data.map Char.toLower

/-- Python `s.lower()` kept as a string (used when the template interpolates
a lower-cased value). -/
def lowerS (s : String) : String := ⟨lower s⟩

/-- Python `key in text`: `key` occurs as a contiguous substring of `text`. -/
def occurs (key : String) (text : List Char) : Prop := key.data <:+: text

instance (key : String) (text : List Char) : Decidable (occurs key text) :=
  List.decidableInfix key.data text

/-- Boolean form of `occurs`. -/
def occursB (key : String) (text : List Char) : Bool := decide (occurs key text)

/-- The ordered domain table (`domains` in `app.py`, lines 34-51).
Python dicts preserve insertion order, so the dict is an ordered
association list. -/
def domains : List (String × String) :=
  [("develop", "software development"),
   ("program", "programming"),
   ("code", "coding"),
   ("tech", "technology"),
   ("market", "marketing"),
   ("business", "business strategy"),
   ("write", "content creation"),
   ("content", "content strategy"),
   ("data", "data analysis"),
   ("analy", "analytics"),
   ("research", "research"),
   ("design", "design"),
   ("product", "product management"),
   ("teach", "education"),
   ("learn", "learning"),
   ("consult", "consulting")]

/-- First-match-wins scan of an ordered keyword table, mirroring the
`for key, v in table.items(): if pred(key): found = v; break` loops. -/
def first_match : List (String × String) → (String → Bool) → Option String
  | [], _ => none
  | (k, v) :: rest, p => if p k then some v else first_match rest p

/-- Lines 53-60: the identified domain, scanning `role_lower` and `task_lower`
against the ordered `domains` table, defaulting to "professional consulting". -/
def identified_domain (role task : String) : String :=
  (first_match domains
    (fun k => occursB k (lower role) || occursB k (lower task))).getD
    "professional consulting"

/-- Line 63: the ordered experience-level keyword list. -/
def experience_levels : List String :=
  ["expert", "senior", "experienced", "specialist", "professional"]

/-- Line 64: first experience-level keyword occurring in `role_lower`,
defaulting to "experienced". -/
def experience_level (role : String) : String :=
  (experience_levels.find? (fun lvl => occursB lvl (lower role))).getD
    "experienced"

/-- Line 67: whether any learning trigger occurs in `context_lower`. -/
def is_learning (context : String) : Bool :=
  ["learn", "beginner", "newbie", "starting", "new to"].any
    (fun term => occursB term (lower context))

/-- Lines 70-85: the ordered project-type table. -/
def project_types : List (String × String) :=
  [("app", "application development"),
   ("website", "web development"),
   ("platform", "platform development"),
   ("tool", "tool creation"),
   ("dashboard", "dashboard development"),
   ("script", "script development"),
   ("system", "system design"),
   ("framework", "framework development"),
   ("api", "API development"),
   ("database", "database solution"),
   ("automation", "automation solution"),
   ("ai", "AI solution"),
   ("ml", "machine learning solution"),
   ("analytics", "analytics solution")]

/-- Lines 87-94: the project type, scanning `task_lower` first-match-wins,
defaulting to "solution". -/
def project_type (task : String) : String :=
  (first_match project_types (fun k => occursB k (lower task))).getD "solution"

/-- Lines 97-117: the ordered technology table. -/
def technologies : List (String × String) :=
  [("python", "Python"),
   ("javascript", "JavaScript"),
   ("js", "JavaScript"),
   ("react", "React"),
   ("node", "Node.js"),
   ("flask", "Flask"),
   ("django", "Django"),
   ("streamlit", "Streamlit"),
   ("tensorflow", "TensorFlow"),
   ("pytorch", "PyTorch"),
   ("pandas", "pandas"),
   ("numpy", "NumPy"),
   ("sql", "SQL"),
   ("docker", "Docker"),
   ("kubernetes", "Kubernetes"),
   ("aws", "AWS"),
   ("azure", "Azure"),
   ("gcp", "Google Cloud"),
   ("api", "API")]

/-- Line 120: `all_text = f"{role_lower} {context_lower} {task_lower}"`. -/
def all_text (role context task : String) : List Char :=
  lower role ++ ' ' :: lower context ++ ' ' :: lower task

/-- Lines 119-123: collect the canonical name of every technology whose
keyword occurs in `all_text`, appending in table order (all matches, not
first-match-only). -/
def tech_stack (role context task : String) : List String :=
  technologies.foldl
    (fun acc kv =>
      if occursB kv.1 (all_text role context task) then acc ++ [kv.2] else acc)
    []

/-- Helper for Python `str.title()`: the flag records whether the previous
character was alphabetic (i.e. whether we are inside a word). -/
def titleAux : Bool → List Char → List Char
  | _, [] => []
  | inWord, c :: rest =>
    (if c.isAlpha then (if inWord then c.toLower else c.toUpper) else c) ::
      titleAux c.isAlpha rest

/-- Python `s.title()` (ASCII): the first letter of each word upper-cased and
every other letter lower-cased. -/
def pyTitle (s : String) : String := ⟨titleAux false s.data⟩

/-- Python `s.strip()`: drop leading and trailing whitespace. -/
def pyStrip (s : String) : String :=
  ⟨((s.data.dropWhile Char.isWhitespace).reverse.dropWhile
      Char.isWhitespace).reverse⟩

/-- Python `s.rstrip('.')`: drop all trailing period characters. -/
def rstripDot (s : String) : String :=
  ⟨(s.data.reverse.dropWhile (fun c => c == '.')).reverse⟩

/-- Line 146: Python
`td.lower().startswith(("create", "develop", "build", "design", "implement"))`. -/
def startsWithVerb (l : List Char) : Bool :=
  ["create", "develop", "build", "design", "implement"].any
    (fun v => v.data.isPrefixOf l)

/-- Lines 145-147: the project description — the task trimmed, trailing
periods removed, with "develop " prepended unless it already starts with one
of the accepted verbs. -/
def task_description (task : String) : String :=
  let td := rstripDot (pyStrip task)
  if startsWithVerb (lower td) then td else "develop " ++ td

/-- Lines 126-131: the four candidate titles. -/
def titles (ptype dom : String) : List String :=
  ["Creating a " ++ pyTitle ptype ++ " for " ++ pyTitle dom,
   "Developing a Custom " ++ pyTitle ptype ++ " Solution",
   pyTitle dom ++ " " ++ pyTitle ptype ++ " Project",
   "Building a Specialized " ++ pyTitle ptype ++ " for " ++ pyTitle dom]

/-- Python `', '.join(tech_stack) if tech_stack else dflt`. -/
def techListOr (ts : List String) (dflt : String) : String :=
  if ts.isEmpty then dflt else String.intercalate ", " ts

/-- Lines 136-140: the three candidate personas. -/
def personas (lvl dom : String) (ts : List String) : List String :=
  ["As an " ++ lvl ++ " " ++ dom ++ " specialist with a focus on " ++
     techListOr ts "cutting-edge technologies",
   "Taking the perspective of a seasoned " ++ dom ++
     " professional with deep expertise in " ++
     techListOr ts "modern development practices",
   "Working as a " ++ lvl ++ " developer specializing in " ++ dom ++ " and " ++
     techListOr ts "innovative solutions"]

/-- Lines 150-166: the objectives list — a learning or expert base block,
then blocks gated on "streamlit" and "api" occurring in `all_text`. -/
def objectives (role context task : String) : List String :=
  (if is_learning context then
    ["Create a solution that serves as both a functional tool and a learning resource",
     "Provide clear code structure with comments that explain the implementation",
     "Include step-by-step setup instructions for beginners"]
  else
    ["Deliver a high-quality " ++ project_type task ++ " that meets industry standards",
     "Ensure the solution is robust, scalable, and maintainable",
     "Optimize for performance and user experience"]) ++
  (if occursB "streamlit" (all_text role context task) then
    ["Develop an intuitive Streamlit interface with responsive design",
     "Implement effective state management for a seamless user experience"]
  else []) ++
  (if occursB "api" (all_text role context task) then
    ["Create secure API integration with proper validation and error handling"]
  else [])

/-- Lines 169-184: the requirements list — blocks gated on "app"/"application",
"python" and "streamlit" occurring in `all_text`. -/
def requirements (role context task : String) : List String :=
  (if occursB "app" (all_text role context task) ||
      occursB "application" (all_text role context task) then
    ["Intuitive user interface with clear navigation and feedback",
     "Responsive design that works across different devices",
     "Proper error handling and user guidance"]
  else []) ++
  (if occursB "python" (all_text role context task) then
    ["Clean, well-organized Python code following PEP 8 standards",
     "Modular architecture with separation of concerns",
     "Comprehensive documentation and inline comments"]
  else []) ++
  (if occursB "streamlit" (all_text role context task) then
    ["Efficient Streamlit components and layouts",
     "State management for user session data",
     "Properly structured app with clear sections and navigation"]
  else [])

/-- Lines 186-218: the final f-string template, as a function of the chosen
title, the chosen persona, the raw context, the task description and the two
gated lists. Every literal chunk below is copied verbatim from the source. -/
def render (context title persona td : String)
    (objs reqs : List String) : String :=
  "# " ++ title ++ "\n\n" ++
  persona ++ ", I need your expertise to " ++ td ++
  ".\n\n## Project Context\nI\x27m " ++ rstripDot (pyStrip context) ++
  ". This project is intended to " ++ lowerS td ++
  " that will help me " ++ lowerS (pyStrip context) ++
  ".\n\n## Key Objectives\n" ++ String.intercalate ". " objs ++
  "\n\n## Technical Requirements\nThe solution should include:\n- " ++
  String.intercalate ". " reqs ++
  "\n- Proper security measures including input validation and data protection\n- Clean, maintainable code with appropriate documentation\n- Scalable architecture that can accommodate future enhancements\n\n## Deliverables\nPlease provide:\n1. A complete, working solution with all necessary code and components\n2. Clear explanation of the solution architecture and key design decisions\n3. Step-by-step instructions for setting up and running the application\n4. Recommendations for future improvements and expansions\n\n## Additional Considerations\n- The solution should be accessible to users with varying levels of technical expertise\n- Include best practices for code organization and project structure\n- Consider performance optimization for a smooth user experience\n- Address potential security concerns and implementation challenges\n\nIf you need any clarification or additional information about my requirements, technical background, or project goals, please let me know.\n"

/-- `transform_prompt` (lines 25-220).  The two `random.choice` calls are
modelled by the explicit indices `i` (over the four titles) and `j` (over the
three personas); everything else is a deterministic function of the inputs. -/
def transform_prompt (role context task : String) (i : Fin 4) (j : Fin 3) :
    String :=
  render context
    ((titles (project_type task) (identified_domain role task)).get
      ⟨i.val, i.isLt⟩)
    ((personas (experience_level role) (identified_domain role task)
        (tech_stack role context task)).get ⟨j.val, j.isLt⟩)
    (task_description task)
    (objectives role context task)
    (requirements role context task)

/-- The fixed finite set of renderings that `transform_prompt` can produce for
a given input: one per (title, persona) candidate pair. -/
def renderings (role context task : String) : List String :=
  (titles (project_type task) (identified_domain role task)).flatMap
    (fun ttl =>
      (personas (experience_level role) (identified_domain role task)
          (tech_stack role context task)).map
        (fun per =>
          render context ttl per (task_description task)
            (objectives role context task)
            (requirements role context task)))

/-- `validate_api_key` (lines 7-23).  The outcome of the one network call is
passed in explicitly: `Except.ok ()` models a successful test request,
`Except.error e` models the call raising an exception with message `e`.
The Python function returns `False` before touching the network when the key
is empty or shorter than 30 characters, returns `True` on a successful call,
and catches any exception, returning `False`. -/
def validate_api_key (api_key : String) (net : Except String Unit) : Bool :=
  if api_key.isEmpty || api_key.length < 30 then false
  else
    match net with
    | Except.ok _ => true
    | Except.error _ => false

/-! ### Helper lemmas -/

lemma occurs_append_left {k : String} {t : List Char} (h : occurs k t)
    (u : List Char) : occurs k (t ++ u) := by
  obtain ⟨x, y, hxy⟩ := h
  exact ⟨x, y ++ u, by rw [← hxy]; simp [List.append_assoc]⟩

lemma occurs_append_right {k : String} {t : List Char} (h : occurs k t)
    (u : List Char) : occurs k (u ++ t) := by
  obtain ⟨x, y, hxy⟩ := h
  exact ⟨u ++ x, y, by rw [← hxy]; simp [List.append_assoc]⟩

lemma occurs_cons {k : String} {t : List Char} (h : occurs k t) (c : Char) :
    occurs k (c :: t) := by
  obtain ⟨x, y, hxy⟩ := h
  exact ⟨c :: x, y, by rw [← hxy]; rfl⟩

lemma occurs_all_text_of_role {k : String} (r c t : String)
    (h : occurs k (lower r)) : occurs k (all_text r c t) := by
  unfold all_text
  exact occurs_append_left (occurs_append_left h (' ' :: lower c))
    (' ' :: lower t)

lemma occurs_all_text_of_context {k : String} (r c t : String)
    (h : occurs k (lower c)) : occurs k (all_text r c t) := by
  unfold all_text
  exact occurs_append_left (occurs_append_right (occurs_cons h ' ') (lower r))
    (' ' :: lower t)

lemma occurs_all_text_of_task {k : String} (r c t : String)
    (h : occurs k (lower t)) : occurs k (all_text r c t) := by
  unfold all_text
  exact occurs_append_right (occurs_cons h ' ') (lower r ++ ' ' :: lower c)

lemma first_match_eq_none (p : String → Bool) :
    ∀ (tbl : List (String × String)), (∀ kv ∈ tbl, p kv.1 = false) →
      first_match tbl p = none := by
  intro tbl
  induction tbl with
  | nil => intro _; rfl
  | cons kv rest ih =>
    intro h
    obtain ⟨a, b⟩ := kv
    have ha : p a = false := h (a, b) (List.mem_cons_self _ _)
    simp only [first_match, ha, Bool.false_eq_true, if_false]
    exact ih (fun kv hkv => h kv (List.mem_cons_of_mem _ hkv))

lemma first_match_append (p : String → Bool) (k v : String)
    (rest : List (String × String)) :
    ∀ (pre : List (String × String)), (∀ kv ∈ pre, p kv.1 = false) →
      p k = true →
      first_match (pre ++ (k, v) :: rest) p = some v := by
  intro pre
  induction pre with
  | nil =>
    intro _ hk
    simp [first_match, hk]
  | cons kv pre ih =>
    intro h hk
    obtain ⟨a, b⟩ := kv
    have ha : p a = false := h (a, b) (List.mem_cons_self _ _)
    simp only [List.cons_append, first_match, ha, Bool.false_eq_true, if_false]
    exact ih (fun kv hkv => h kv (List.mem_cons_of_mem _ hkv)) hk

lemma foldl_collect (g : String × String → Bool) :
    ∀ (tbl : List (String × String)) (acc : List String),
      tbl.foldl (fun a kv => if g kv then a ++ [kv.2] else a) acc =
        acc ++ (tbl.filter g).map Prod.snd := by
  intro tbl
  induction tbl with
  | nil => intro acc; simp
  | cons kv rest ih =>
    intro acc
    by_cases hg : g kv <;>
      simp [List.foldl_cons, List.filter_cons, hg, ih, List.append_assoc]

lemma tech_stack_eq (r c t : String) :
    tech_stack r c t =
      (technologies.filter
        (fun kv => occursB kv.1 (all_text r c t))).map Prod.snd :=
  foldl_collect (fun kv => occursB kv.1 (all_text r c t)) technologies []

lemma if_block_sublist {g g' : Bool} (h : g = true → g' = true)
    (X : List String) : (if g then X else []) <+ (if g' then X else []) := by
  cases g with
  | false => simp
  | true => rw [h rfl]

lemma lower_append (a b : String) : lower (a ++ b) = lower a ++ lower b := by
  simp [lower]

lemma all_text_task_append (r c t u : String) :
    all_text r c (t ++ u) = all_text r c t ++ lower u := by
  simp [all_text, lower_append, List.append_assoc]

lemma occursB_mono_task {k : String} (r c t u : String)
    (h : occursB k (all_text r c t) = true) :
    occursB k (all_text r c (t ++ u)) = true := by
  have ho : occurs k (all_text r c t) := of_decide_eq_true h
  rw [all_text_task_append]
  exact decide_eq_true (occurs_append_left ho _)

set_option maxRecDepth 20000 in
lemma render_ne_empty (context title persona td : String)
    (objs reqs : List String) :
    render context title persona td objs reqs ≠ "" := by
  unfold render
  intro h
  have h2 := congrArg String.data h
  simp only [String.data_append] at h2
  simp at h2

set_option maxRecDepth 20000 in
lemma render_objs_decomp (context title persona td : String)
    (objs reqs : List String) :
    ∃ l r, (render context title persona td objs reqs).data =
      l ++ (String.intercalate ". " objs).data ++ r := by
  unfold render
  refine ⟨("# " ++ title ++ "\n\n" ++ persona ++ ", I need your expertise to "
      ++ td ++ ".\n\n## Project Context\nI\x27m " ++ rstripDot (pyStrip context)
      ++ ". This project is intended to " ++ lowerS td
      ++ " that will help me " ++ lowerS (pyStrip context)
      ++ ".\n\n## Key Objectives\n").data, ?_, ?_⟩
  · exact ("\n\n## Technical Requirements\nThe solution should include:\n- "
      ++ String.intercalate ". " reqs
      ++ "\n- Proper security measures including input validation and data protection\n- Clean, maintainable code with appropriate documentation\n- Scalable architecture that can accommodate future enhancements\n\n## Deliverables\nPlease provide:\n1. A complete, working solution with all necessary code and components\n2. Clear explanation of the solution architecture and key design decisions\n3. Step-by-step instructions for setting up and running the application\n4. Recommendations for future improvements and expansions\n\n## Additional Considerations\n- The solution should be accessible to users with varying levels of technical expertise\n- Include best practices for code organization and project structure\n- Consider performance optimization for a smooth user experience\n- Address potential security concerns and implementation challenges\n\nIf you need any clarification or additional information about my requirements, technical background, or project goals, please let me know.\n").data
  · simp only [String.data_append, List.append_assoc]

set_option maxRecDepth 20000 in
lemma render_td_decomp (context title persona td : String)
    (objs reqs : List String) :
    ∃ l r, (render context title persona td objs reqs).data =
      l ++ td.data ++ r := by
  unfold render
  refine ⟨("# " ++ title ++ "\n\n" ++ persona ++
      ", I need your expertise to ").data, ?_, ?_⟩
  · exact (".\n\n## Project Context\nI\x27m " ++ rstripDot (pyStrip context)
      ++ ". This project is intended to " ++ lowerS td
      ++ " that will help me " ++ lowerS (pyStrip context)
      ++ ".\n\n## Key Objectives\n" ++ String.intercalate ". " objs
      ++ "\n\n## Technical Requirements\nThe solution should include:\n- "
      ++ String.intercalate ". " reqs
      ++ "\n- Proper security measures including input validation and data protection\n- Clean, maintainable code with appropriate documentation\n- Scalable architecture that can accommodate future enhancements\n\n## Deliverables\nPlease provide:\n1. A complete, working solution with all necessary code and components\n2. Clear explanation of the solution architecture and key design decisions\n3. Step-by-step instructions for setting up and running the application\n4. Recommendations for future improvements and expansions\n\n## Additional Considerations\n- The solution should be accessible to users with varying levels of technical expertise\n- Include best practices for code organization and project structure\n- Consider performance optimization for a smooth user experience\n- Address potential security concerns and implementation challenges\n\nIf you need any clarification or additional information about my requirements, technical background, or project goals, please let me know.\n").data
  · simp only [String.data_append, List.append_assoc]

lemma occurs_render_objs {s : String} (context title persona td : String)
    (objs reqs : List String)
    (h : occurs s ((String.intercalate ". " objs).data)) :
    occurs s ((render context title persona td objs reqs).data) := by
  obtain ⟨l, rr, hl⟩ := render_objs_decomp context title persona td objs reqs
  obtain ⟨x, y, hxy⟩ := h
  refine ⟨l ++ x, y ++ rr, ?_⟩
  rw [hl, ← hxy]
  simp [List.append_assoc]

/-! ### Theorems about the claims -/

/-- C1 (totality): for every triple of non-empty strings, `transform_prompt`
returns a non-empty string.  In the embedding the function is total by
construction (it cannot raise), and this theorem shows the result is never
the empty string — for either random choice of title or persona. -/
theorem totality_C1 (role context task : String) (i : Fin 4) (j : Fin 3)
    (_hr : role ≠ "") (_hc : context ≠ "") (_ht : task ≠ "") :
    transform_prompt role context task i j ≠ "" :=
  render_ne_empty context _ _ _ _ _

/-- Witness for C1 at a concrete input. -/
theorem totality_C1_witness :
    ("a" : String) ≠ "" ∧ ("b" : String) ≠ "" ∧ ("c" : String) ≠ "" ∧
    transform_prompt "a" "b" "c" 0 0 ≠ "" :=
  ⟨by decide, by decide, by decide,
   totality_C1 "a" "b" "c" 0 0 (by decide) (by decide) (by decide)⟩

/-- C2 (bounded nondeterminism): whatever the two random choices are, the
output belongs to the fixed list `renderings` of the 4 × 3 = 12 candidate
renderings determined by the input; all other content is a deterministic
function of the input. -/
theorem bounded_choice_C2 (role context task : String) (i : Fin 4)
    (j : Fin 3) :
    transform_prompt role context task i j ∈ renderings role context task ∧
    (renderings role context task).length = 12 :=
  ⟨by
    unfold transform_prompt renderings
    exact List.mem_flatMap.mpr
      ⟨_, List.get_mem _ _ _, List.mem_map.mpr ⟨_, List.get_mem _ _ _, rfl⟩⟩,
   rfl⟩

/-- C9 (credential-validation error handling): `validate_api_key` returns a
boolean for every key (it is total by construction); when the key is empty or
shorter than 30 characters it returns `false` for every possible network
outcome (so the result does not depend on the network call); and when the
network call raises, the exception is caught and `false` is returned. -/
theorem validate_key_C9 (k : String) (net : Except String Unit) (e : String) :
    ((k = "" ∨ k.length < 30) → validate_api_key k net = false) ∧
    validate_api_key k (Except.error e) = false := by
  constructor
  · intro h
    rcases h with h | h
    · subst h; rfl
    · simp [validate_api_key, h]
  · unfold validate_api_key
    split
    · rfl
    · rfl

/-- Witness for C9 at concrete inputs. -/
theorem validate_key_C9_witness :
    (("" : String) = "" ∨ ("" : String).length < 30) ∧
    validate_api_key "" (Except.ok ()) = false ∧
    validate_api_key "shortkey" (Except.error "boom") = false :=
  ⟨Or.inl rfl, (validate_key_C9 "" (Except.ok ()) "x").1 (Or.inl rfl),
   (validate_key_C9 "shortkey" (Except.ok ()) "boom").2⟩

/-- C3 (default fallback): if the combined input text contains no keyword of
any lookup table, the classification falls back to the defaults: domain
"professional consulting", project type "solution", experience level
"experienced", and an empty technology list.  (Keywords absent from the
combined text `all_text` are in particular absent from each individual field,
since each field is a contiguous fragment of `all_text`.) -/
theorem default_fallback_C3 (r c t : String)
    (hdom : ∀ kv ∈ domains, ¬ occurs kv.1 (all_text r c t))
    (hlvl : ∀ k ∈ experience_levels, ¬ occurs k (all_text r c t))
    (hproj : ∀ kv ∈ project_types, ¬ occurs kv.1 (all_text r c t))
    (htech : ∀ kv ∈ technologies, ¬ occurs kv.1 (all_text r c t)) :
    identified_domain r t = "professional consulting" ∧
    project_type t = "solution" ∧
    experience_level r = "experienced" ∧
    tech_stack r c t = [] := by
  refine ⟨?_, ?_, ?_, ?_⟩
  · have hn : first_match domains
        (fun k => occursB k (lower r) || occursB k (lower t)) = none := by
      refine first_match_eq_none _ _ (fun kv hkv => ?_)
      have h1 : ¬ occurs kv.1 (lower r) :=
        fun hx => hdom kv hkv (occurs_all_text_of_role r c t hx)
      have h2 : ¬ occurs kv.1 (lower t) :=
        fun hx => hdom kv hkv (occurs_all_text_of_task r c t hx)
      show (occursB kv.1 (lower r) || occursB kv.1 (lower t)) = false
      unfold occursB
      rw [decide_eq_false h1, decide_eq_false h2]
      rfl
    unfold identified_domain
    rw [hn]
    rfl
  · have hn : first_match project_types
        (fun k => occursB k (lower t)) = none := by
      refine first_match_eq_none _ _ (fun kv hkv => ?_)
      have h2 : ¬ occurs kv.1 (lower t) :=
        fun hx => hproj kv hkv (occurs_all_text_of_task r c t hx)
      exact decide_eq_false h2
    unfold project_type
    rw [hn]
    rfl
  · have hn : experience_levels.find?
        (fun lvl => occursB lvl (lower r)) = none := by
      refine List.find?_eq_none.mpr (fun x hx hb => ?_)
      exact hlvl x hx (occurs_all_text_of_role r c t (of_decide_eq_true hb))
    unfold experience_level
    rw [hn]
    rfl
  · have hf : technologies.filter
        (fun kv => occursB kv.1 (all_text r c t)) = [] :=
      List.filter_eq_nil_iff.mpr
        (fun kv hkv hb => htech kv hkv (of_decide_eq_true hb))
    rw [tech_stack_eq, hf]
    rfl

/-- Witness for C3: the input ("zzz", "qqq", "www") contains no recognized
keyword of any table. -/
theorem default_fallback_C3_witness :
    (∀ kv ∈ domains, ¬ occurs kv.1 (all_text "zzz" "qqq" "www")) ∧
    (∀ k ∈ experience_levels, ¬ occurs k (all_text "zzz" "qqq" "www")) ∧
    (∀ kv ∈ project_types, ¬ occurs kv.1 (all_text "zzz" "qqq" "www")) ∧
    (∀ kv ∈ technologies, ¬ occurs kv.1 (all_text "zzz" "qqq" "www")) ∧
    identified_domain "zzz" "www" = "professional consulting" ∧
    project_type "www" = "solution" ∧
    experience_level "zzz" = "experienced" ∧
    tech_stack "zzz" "qqq" "www" = [] :=
  ⟨by decide, by decide, by decide, by decide,
   default_fallback_C3 "zzz" "qqq" "www" (by decide) (by decide) (by decide)
     (by decide)⟩

/-- C4 (first-match-wins domain classification): if the role+task text
contains two keywords `k1` and `k2` of the ordered domain table mapping to
different labels, then — with `k1` the earlier one in the table among the
matching keywords (no entry before `k1` matches) — the classified domain is
`k1`'s label `d1`, regardless of where the keywords occur in the input
text. -/
theorem first_match_domain_C4 (r t : String)
    (pre mid post : List (String × String)) (k1 d1 k2 d2 : String)
    (htbl : domains = pre ++ ((k1, d1) :: (mid ++ (k2, d2) :: post)))
    (_hne : d1 ≠ d2)
    (_h2 : occurs k2 (lower r) ∨ occurs k2 (lower t))
    (hpre : ∀ kv ∈ pre, ¬ occurs kv.1 (lower r) ∧ ¬ occurs kv.1 (lower t))
    (h1 : occurs k1 (lower r) ∨ occurs k1 (lower t)) :
    identified_domain r t = d1 := by
  have hk1 : (occursB k1 (lower r) || occursB k1 (lower t)) = true := by
    unfold occursB
    rcases h1 with h | h
    · rw [decide_eq_true h]
      rfl
    · rw [decide_eq_true h]
      simp
  have hp : ∀ kv ∈ pre,
      (fun k => occursB k (lower r) || occursB k (lower t)) kv.1 = false := by
    intro kv hkv
    show (occursB kv.1 (lower r) || occursB kv.1 (lower t)) = false
    unfold occursB
    rw [decide_eq_false (hpre kv hkv).1, decide_eq_false (hpre kv hkv).2]
    rfl
  unfold identified_domain
  rw [htbl, first_match_append _ k1 d1 (mid ++ (k2, d2) :: post) pre hp hk1]
  rfl

/-- Witness for C4: "develop" and "market" both occur and map to different
domains; "develop" is listed first and wins even though "market" could occur
earlier in the text. -/
theorem first_match_domain_C4_witness :
    domains = [] ++ (("develop", "software development") ::
      ([("program", "programming"), ("code", "coding"),
        ("tech", "technology")] ++ ("market", "marketing") ::
        [("business", "business strategy"), ("write", "content creation"),
         ("content", "content strategy"), ("data", "data analysis"),
         ("analy", "analytics"), ("research", "research"),
         ("design", "design"), ("product", "product management"),
         ("teach", "education"), ("learn", "learning"),
         ("consult", "consulting")])) ∧
    ("software development" : String) ≠ "marketing" ∧
    occurs "market" (lower "market first, develop later") ∧
    occurs "develop" (lower "market first, develop later") ∧
    identified_domain "market first, develop later" "x" =
      "software development" :=
  ⟨by decide, by decide, by decide, by decide,
   first_match_domain_C4 "market first, develop later" "x" []
     [("program", "programming"), ("code", "coding"), ("tech", "technology")]
     [("business", "business strategy"), ("write", "content creation"),
      ("content", "content strategy"), ("data", "data analysis"),
      ("analy", "analytics"), ("research", "research"),
      ("design", "design"), ("product", "product management"),
      ("teach", "education"), ("learn", "learning"),
      ("consult", "consulting")]
     "develop" "software development" "market" "marketing"
     (by decide) (by decide) (Or.inl (by decide))
     (by decide) (Or.inl (by decide))⟩

/-- C5 counterexample: the claim that the technology list is an ordered set
(no canonical name twice) fails — the keywords "javascript" and "js" are
distinct table entries sharing the canonical name "JavaScript", and an input
containing both yields it twice. -/
theorem tech_stack_C5_cex :
    ("javascript", "JavaScript") ∈ technologies ∧
    ("js", "JavaScript") ∈ technologies ∧
    tech_stack "javascript js fan" "c" "t" = ["JavaScript", "JavaScript"] ∧
    ¬ (tech_stack "javascript js fan" "c" "t").Nodup := by
  refine ⟨by decide, by decide, by decide, by decide⟩

/-- C5 amended: the technology list is exactly the canonical names of the
keywords that occur in the combined text, one entry per matching keyword, in
table order (it may be empty); in particular the canonical name of every
matching keyword is in the list.  It is not always duplicate-free, since two
distinct keywords may share a canonical name. -/
theorem tech_stack_C5 (r c t : String) :
    tech_stack r c t =
      (technologies.filter
        (fun kv => occursB kv.1 (all_text r c t))).map Prod.snd ∧
    ∀ kv ∈ technologies, occurs kv.1 (all_text r c t) →
      kv.2 ∈ tech_stack r c t := by
  have he := tech_stack_eq r c t
  refine ⟨he, ?_⟩
  intro kv hkv hocc
  rw [he]
  exact List.mem_map.mpr
    ⟨kv, List.mem_filter.mpr ⟨hkv, decide_eq_true hocc⟩, rfl⟩

/-- Witness for C5 (amended) at a concrete input. -/
theorem tech_stack_C5_witness :
    ("python", "Python") ∈ technologies ∧
    occurs "python" (all_text "python" "b" "c") ∧
    "Python" ∈ tech_stack "python" "b" "c" :=
  ⟨by decide, by decide,
   (tech_stack_C5 "python" "b" "c").2 ("python", "Python") (by decide)
     (by decide)⟩

/-- C6 counterexample: appending the recognized technology keyword "api" to
the task text changes the classified project type from "solution" to
"API development", which rewords the project-type-parameterized objective —
the previously gated sentence "Deliver a high-quality solution that meets
industry standards" disappears from the objectives list. -/
theorem gating_C6_cex :
    ("api", "API") ∈ technologies ∧
    "Deliver a high-quality solution that meets industry standards" ∈
      objectives "Consultant" "working professional" "organize my notes" ∧
    "Deliver a high-quality solution that meets industry standards" ∉
      objectives "Consultant" "working professional"
        ("organize my notes" ++ " " ++ "api") := by
  refine ⟨by decide, by decide, by decide⟩

/-- C6 amended: appending a word to the task never removes a gated
requirement sentence (the requirement gates are monotone in the combined
text), and it never removes a gated objective sentence provided the
classified project type is unchanged — the exception exhibited by the
counterexample, where the appended keyword also changes the project type and
thereby rewords the project-type-parameterized objective. -/
theorem gating_C6 (r c t s : String) :
    requirements r c t <+ requirements r c (t ++ " " ++ s) ∧
    (project_type (t ++ " " ++ s) = project_type t →
      objectives r c t <+ objectives r c (t ++ " " ++ s)) := by
  have hm : ∀ k : String, occursB k (all_text r c t) = true →
      occursB k (all_text r c (t ++ " " ++ s)) = true := by
    intro k hk
    have h1 : t ++ " " ++ s = t ++ (" " ++ s) := by
      rw [String.append_assoc]
    rw [h1]
    exact occursB_mono_task r c t (" " ++ s) hk
  constructor
  · unfold requirements
    refine List.Sublist.append (List.Sublist.append ?_ ?_) ?_
    · refine if_block_sublist (fun h => ?_) _
      rcases Bool.or_eq_true_iff.mp h with h | h
      · rw [hm _ h]
        rfl
      · rw [hm _ h]
        simp
    · exact if_block_sublist (hm "python") _
    · exact if_block_sublist (hm "streamlit") _
  · intro hpt
    unfold objectives
    refine List.Sublist.append (List.Sublist.append ?_ ?_) ?_
    · rw [hpt]
    · exact if_block_sublist (hm "streamlit") _
    · exact if_block_sublist (hm "api") _

/-- Witness for C6 (amended) at a concrete input. -/
theorem gating_C6_witness :
    project_type ("c" ++ " " ++ "python") = project_type "c" ∧
    requirements "a" "b" "c" <+ requirements "a" "b" ("c" ++ " " ++ "python") ∧
    objectives "a" "b" "c" <+ objectives "a" "b" ("c" ++ " " ++ "python") :=
  ⟨by decide, (gating_C6 "a" "b" "c" "python").1,
   (gating_C6 "a" "b" "c" "python").2 (by decide)⟩

/-- C7 (worked example): for role "Python Developer", context "beginner
building my first app", task "create a data visualization app", the
learning-mode flag is true, the objectives are exactly the three
beginner-oriented sentences, the technology list contains "Python", and the
beginner objective appears verbatim in the output for every random choice. -/
theorem worked_example_C7 :
    is_learning "beginner building my first app" = true ∧
    "Python" ∈ tech_stack "Python Developer" "beginner building my first app"
      "create a data visualization app" ∧
    objectives "Python Developer" "beginner building my first app"
      "create a data visualization app" =
      ["Create a solution that serves as both a functional tool and a learning resource",
       "Provide clear code structure with comments that explain the implementation",
       "Include step-by-step setup instructions for beginners"] ∧
    ∀ (i : Fin 4) (j : Fin 3),
      occurs "Include step-by-step setup instructions for beginners"
        ((transform_prompt "Python Developer" "beginner building my first app"
          "create a data visualization app" i j).data) := by
  set_option maxRecDepth 40000 in
  refine ⟨by decide, by decide, by decide, ?_⟩
  intro i j
  exact occurs_render_objs _ _ _ _ _ _ (by decide)

/-- C8 (fixed section template): for every non-empty input triple and either
random choice, the output is the fixed template — title opening, then the
Project Context, Key Objectives, Technical Requirements, Deliverables and
Additional Considerations sections with fixed headers and fixed surrounding
wording — with only the classified/gated content (the existentially bound
holes) varying between inputs. -/
theorem template_C8 (role context task : String) (i : Fin 4) (j : Fin 3)
    (_hr : role ≠ "") (_hc : context ≠ "") (_ht : task ≠ "") :
    ∃ title persona td ctxTrim tdLower ctxLower objsJoined reqsJoined :
      String,
      transform_prompt role context task i j =
        "# " ++ title ++ "\n\n" ++ persona ++ ", I need your expertise to " ++
        td ++ ".\n\n## Project Context\nI\x27m " ++ ctxTrim ++
        ". This project is intended to " ++ tdLower ++
        " that will help me " ++ ctxLower ++ ".\n\n## Key Objectives\n" ++
        objsJoined ++
        "\n\n## Technical Requirements\nThe solution should include:\n- " ++
        reqsJoined ++
        "\n- Proper security measures including input validation and data protection\n- Clean, maintainable code with appropriate documentation\n- Scalable architecture that can accommodate future enhancements\n\n## Deliverables\nPlease provide:\n1. A complete, working solution with all necessary code and components\n2. Clear explanation of the solution architecture and key design decisions\n3. Step-by-step instructions for setting up and running the application\n4. Recommendations for future improvements and expansions\n\n## Additional Considerations\n- The solution should be accessible to users with varying levels of technical expertise\n- Include best practices for code organization and project structure\n- Consider performance optimization for a smooth user experience\n- Address potential security concerns and implementation challenges\n\nIf you need any clarification or additional information about my requirements, technical background, or project goals, please let me know.\n" :=
  ⟨(titles (project_type task) (identified_domain role task)).get
      ⟨i.val, i.isLt⟩,
   (personas (experience_level role) (identified_domain role task)
       (tech_stack role context task)).get ⟨j.val, j.isLt⟩,
   task_description task,
   rstripDot (pyStrip context),
   lowerS (task_description task),
   lowerS (pyStrip context),
   String.intercalate ". " (objectives role context task),
   String.intercalate ". " (requirements role context task),
   rfl⟩

/-- Witness for C8 at a concrete input. -/
theorem template_C8_witness :
    ∃ title persona td ctxTrim tdLower ctxLower objsJoined reqsJoined :
      String,
      transform_prompt "a" "b" "c" 0 0 =
        "# " ++ title ++ "\n\n" ++ persona ++ ", I need your expertise to " ++
        td ++ ".\n\n## Project Context\nI\x27m " ++ ctxTrim ++
        ". This project is intended to " ++ tdLower ++
        " that will help me " ++ ctxLower ++ ".\n\n## Key Objectives\n" ++
        objsJoined ++
        "\n\n## Technical Requirements\nThe solution should include:\n- " ++
        reqsJoined ++
        "\n- Proper security measures including input validation and data protection\n- Clean, maintainable code with appropriate documentation\n- Scalable architecture that can accommodate future enhancements\n\n## Deliverables\nPlease provide:\n1. A complete, working solution with all necessary code and components\n2. Clear explanation of the solution architecture and key design decisions\n3. Step-by-step instructions for setting up and running the application\n4. Recommendations for future improvements and expansions\n\n## Additional Considerations\n- The solution should be accessible to users with varying levels of technical expertise\n- Include best practices for code organization and project structure\n- Consider performance optimization for a smooth user experience\n- Address potential security concerns and implementation challenges\n\nIf you need any clarification or additional information about my requirements, technical background, or project goals, please let me know.\n" :=
  template_C8 "a" "b" "c" 0 0 (by decide) (by decide) (by decide)

/-- C10 (task-phrasing normalization): the task text rendered into the prompt
is the trimmed task with trailing periods removed; if its lower-cased form
does not start with "create", "develop", "build", "design" or "implement",
the literal prefix "develop " is prepended, otherwise it is used unchanged;
and this task description appears verbatim in the rendered prompt. -/
theorem task_phrasing_C10 (task : String) :
    (startsWithVerb (lower (rstripDot (pyStrip task))) = false →
      task_description task = "develop " ++ rstripDot (pyStrip task)) ∧
    (startsWithVerb (lower (rstripDot (pyStrip task))) = true →
      task_description task = rstripDot (pyStrip task)) ∧
    ∀ (r c : String) (i : Fin 4) (j : Fin 3),
      ∃ l rr, (transform_prompt r c task i j).data =
        l ++ (task_description task).data ++ rr := by
  have he : task_description task =
      if startsWithVerb (lower (rstripDot (pyStrip task))) = true then
        rstripDot (pyStrip task)
      else "develop " ++ rstripDot (pyStrip task) := rfl
  refine ⟨?_, ?_, ?_⟩
  · intro h
    rw [he, h]
    simp
  · intro h
    rw [he, h]
    simp
  · intro r c i j
    exact render_td_decomp c
      ((titles (project_type task) (identified_domain r task)).get
        ⟨i.val, i.isLt⟩)
      ((personas (experience_level r) (identified_domain r task)
          (tech_stack r c task)).get ⟨j.val, j.isLt⟩)
      (task_description task)
      (objectives r c task)
      (requirements r c task)

/-- Witness for C10 at a concrete input. -/
theorem task_phrasing_C10_witness :
    startsWithVerb (lower (rstripDot (pyStrip "make a thing"))) = false ∧
    task_description "make a thing" =
      "develop " ++ rstripDot (pyStrip "make a thing") ∧
    ∃ l rr, (transform_prompt "a" "b" "make a thing" 0 0).data =
      l ++ (task_description "make a thing").data ++ rr :=
  ⟨by decide, (task_phrasing_C10 "make a thing").1 (by decide),
   (task_phrasing_C10 "make a thing").2.2 "a" "b" 0 0⟩

end PromptApp
